import Mathlib

/-!
Verification of the multi-threaded batch scheduler in
`src/core/thread_manager.py` (classes `ThreadConfig`, `GenerationTask`,
`BatchProgress`, `MultiThreadGenerator`) together with the pieces of
`src/core/prompt_manager.py` it relies on (`Prompt`, `GenerationResult`,
`PromptManager.update_prompt_status`).

All `BatchProgress` mutations happen in the single coordinator thread
(`_run_batch_generation` submits every future, then drains `as_completed`
and calls `_handle_task_completion` itself), so the scheduler's observable
progress states form a sequential trace and are embedded as pure state
transformers.  External collaborators (the driver queue, the generator,
`save_result`, callbacks) are parameters: an `Option`/`Except` value stands
for "returned normally" versus "raised an exception".
-/

namespace ThreadManager

/-- `prompt_manager.Prompt` restricted to the fields the scheduler touches:
`update_prompt_status` mutates `status`, `processed_at` and `error`;
`_process_single_task` mutates `result_path`. -/
structure Prompt where
  id : String
  text : String
  status : String := "pending"
  processed_at : Option String := none
  result_path : Option String := none
  error : Option String := none
deriving Repr, DecidableEq

/-- `prompt_manager.GenerationResult`. -/
structure GenerationResult where
  prompt_id : String
  success : Bool
  image_paths : List String := []
  generation_time : Rat := 0
  timestamp : String := ""
  error : Option String := none
deriving Repr, DecidableEq

/-- `thread_manager.ThreadConfig`. -/
structure ThreadConfig where
  max_workers : Nat := 3
  timeout : Nat := 300
  retry_attempts : Nat := 2
  delay_between_batches : Rat := 1
  delay_between_retries : Rat := 5
deriving Repr, DecidableEq

/-- `thread_manager.GenerationTask` (the opaque `parameters` dict is not
modelled; the scheduler only forwards it). -/
structure GenerationTask where
  prompt : Prompt
  platform : String
  attempt : Nat := 1
  max_attempts : Nat := 2
deriving Repr, DecidableEq

/-- `thread_manager.BatchProgress`.  `in_progress` is an `Int` because the
code decrements it (`self.progress.in_progress -= 1`), so nonnegativity is
a property to prove, not a typing artifact. -/
structure BatchProgress where
  total_prompts : Nat := 0
  completed : Nat := 0
  successful : Nat := 0
  failed : Nat := 0
  in_progress : Int := 0
  start_time : Rat := 0
  results : List GenerationResult := []
deriving Repr, DecidableEq

/-- `PromptManager.update_prompt_status`: plain field assignments, the
`error` field is overwritten only when a non-None error is supplied. -/
def update_prompt_status (p : Prompt) (status : String) (now : String)
    (error : Option String) : Prompt :=
  { p with
    status := status
    processed_at := some now
    error := match error with
      | some e => some e
      | none => p.error }

/-- The timeout literal in `driver_queue.get(timeout=30)` inside
`_process_single_task`: a fixed 30 seconds, independent of the config. -/
def driverAcquireTimeout : Nat := 30

/-- `Queue.get(timeout=30)` against a queue whose next driver becomes
available `availableAt` seconds from the call (`none` = never during this
call).  Returns the driver obtained (if any) and the time spent blocked. -/
def queueGet (driver : Nat) (availableAt : Option Nat) : Option Nat × Nat :=
  match availableAt with
  | some s =>
      if s ≤ driverAcquireTimeout then (some driver, s)
      else (none, driverAcquireTimeout)
  | none => (none, driverAcquireTimeout)

/-- The error message built by `_process_single_task`'s `except` clause:
`f"Task processing error: {str(e)}"`. -/
def taskProcessingError (e : String) : String :=
  "Task processing error: " ++ e

/-- What `_process_single_task` produces: the `GenerationResult` returned
to the future, the prompt after its status mutations, whether the acquired
driver was returned to the pool by the `finally` clause, and whether any
exception escaped the function. -/
structure TaskOutcome where
  result : GenerationResult
  prompt : Prompt
  driver_returned : Bool
  raised : Bool
deriving Repr, DecidableEq

/-- `MultiThreadGenerator._process_single_task`.  `acquire` is the outcome
of `driver_queue.get(timeout=30)` (`none` = `queue.Empty` raised, whose
`str` is the empty string); `generate` is `generator.generate_image`
(`Except.error` = the call raised); `save` is
`prompt_manager.save_result` (`Except.ok` carries the metadata path).
Every raise lands in the single `except Exception` clause, which returns a
failed `GenerationResult`; the `finally` clause returns the driver iff one
was acquired. -/
def processSingleTask (task : GenerationTask) (acquire : Option Nat)
    (generate : Except String GenerationResult)
    (save : Except String String) (now : String) : TaskOutcome :=
  match acquire with
  | none =>
      { result := { prompt_id := task.prompt.id, success := false,
                    timestamp := now,
                    error := some (taskProcessingError "") }
        prompt := task.prompt
        driver_returned := false
        raised := false }
  | some _ =>
      let processing := update_prompt_status task.prompt "processing" now none
      match generate with
      | Except.error e =>
          { result := { prompt_id := task.prompt.id, success := false,
                        timestamp := now,
                        error := some (taskProcessingError e) }
            prompt := processing
            driver_returned := true
            raised := false }
      | Except.ok r =>
          if r.success then
            match save with
            | Except.ok path =>
                { result := r
                  prompt := { update_prompt_status processing "completed" now none with
                              result_path := some path }
                  driver_returned := true
                  raised := false }
            | Except.error e =>
                { result := { prompt_id := task.prompt.id, success := false,
                              timestamp := now,
                              error := some (taskProcessingError e) }
                  prompt := processing
                  driver_returned := true
                  raised := false }
          else
            { result := r
              prompt := update_prompt_status processing "failed" now r.error
              driver_returned := true
              raised := false }

/-- The pure counter update of `_handle_task_completion`, performed under
`progress_lock`: one completion bumps `completed`, decrements
`in_progress`, appends the result, and bumps exactly one of
`successful`/`failed`. -/
def handleTaskCompletion (p : BatchProgress) (r : GenerationResult) : BatchProgress :=
  { p with
    completed := p.completed + 1
    in_progress := p.in_progress - 1
    results := p.results ++ [r]
    successful := if r.success then p.successful + 1 else p.successful
    failed := if r.success then p.failed else p.failed + 1 }

/-- `_handle_task_completion` including the progress-callback call: the
callback runs inside the same lock, after the counter update, wrapped in
`try/except` whose handler only prints.  A raising callback (`Except.error`)
is therefore swallowed. -/
def handleTaskCompletionWithCb (p : BatchProgress) (r : GenerationResult)
    (cb : BatchProgress → Except String Unit) : Except String BatchProgress :=
  let p1 := handleTaskCompletion p r
  match cb p1 with
  | Except.ok _ => Except.ok p1
  | Except.error _ => Except.ok p1

/-- The fresh progress record built by `start_batch_generation`:
`BatchProgress(total_prompts=len(prompts), start_time=time.time())`. -/
def initProgress (n : Nat) (t0 : Rat) : BatchProgress :=
  { total_prompts := n, start_time := t0 }

/-- The `in_progress += 1` step performed (under the lock) after each
`executor.submit` in `_run_batch_generation`. -/
def submitStep (p : BatchProgress) : BatchProgress :=
  { p with in_progress := p.in_progress + 1 }

/-- The submission loop of `_run_batch_generation`: for each task, first
check `self.stop_requested` (break if set), otherwise submit the future
and bump `in_progress` under the lock.  `stopObs i` is the value of the
shared flag observed at iteration `i`; the function returns the tasks
actually handed to the executor and the progress state after the loop. -/
def submitLoop : List GenerationTask → (Nat → Bool) → Nat → BatchProgress →
    List GenerationTask × BatchProgress
  | [], _, _, p => ([], p)
  | t :: ts, stopObs, i, p =>
      if stopObs i then ([], p)
      else
        let step := submitLoop ts stopObs (i + 1) (submitStep p)
        (t :: step.1, step.2)

/-- The result the completion loop extracts from one future:
`future.result()` returned (`Except.ok`) or raised (`Except.error e`), in
which case `_run_batch_generation` builds the failed
`GenerationResult(prompt_id=..., success=False, timestamp=..., error=str(e))`. -/
def futureResult (t : GenerationTask) (r : Except String GenerationResult)
    (now : String) : GenerationResult :=
  match r with
  | Except.ok res => res
  | Except.error e =>
      { prompt_id := t.prompt.id, success := false, timestamp := now,
        error := some e }

/-- The `as_completed` drain loop of `_run_batch_generation`, with its
aggregate deadline `config.timeout * len(tasks)`.  `futures` lists the
submitted futures in completion order, each tagged with the absolute time
at which it completes; `as_completed` raises `TimeoutError` as soon as the
deadline passes while a future is still pending (second component `true`),
and the loop breaks without raising when `stop_requested` is observed.
Each yielded future is handled by `_handle_task_completion` exactly once. -/
def collectLoop (deadline : Nat) (stopObs : Nat → Bool) (nowAt : Nat → String) :
    Nat → List (GenerationTask × Nat × Except String GenerationResult) →
    BatchProgress → BatchProgress × Bool
  | _, [], p => (p, false)
  | i, (t, time, r) :: rest, p =>
      if deadline < time then (p, true)
      else if stopObs i then (p, false)
      else collectLoop deadline stopObs nowAt (i + 1) rest
        (handleTaskCompletion p (futureResult t r (nowAt i)))

/-- Observable state of the background generation thread after
`_run_batch_generation` ends: the final progress, whether
`_finalize_batch` was reached (a raised `TimeoutError` skips it), and
whether any exception escaped the thread body — the enclosing
`try/except Exception` guarantees it never does. -/
structure RunOutcome where
  progress : BatchProgress
  finalized : Bool
  unhandledFault : Bool
deriving Repr, DecidableEq

/-- `_run_batch_generation` from the first submission to `finally`:
submit with `stopObsS`, drain completions with `stopObsC` against the
aggregate deadline; a `TimeoutError` from `as_completed` aborts the `try`
body (skipping `_finalize_batch`) and is caught by the catch-all. -/
def runBatchGeneration (cfg : ThreadConfig) (tasks : List GenerationTask)
    (stopObsS stopObsC : Nat → Bool) (nowAt : Nat → String)
    (futures : List (GenerationTask × Nat × Except String GenerationResult))
    (p0 : BatchProgress) : RunOutcome :=
  let submitted := submitLoop tasks stopObsS 0 p0
  let drained := collectLoop (cfg.timeout * tasks.length) stopObsC nowAt 0 futures submitted.2
  { progress := drained.1
    finalized := !drained.2
    unhandledFault := false }

/-- An uninterrupted batch run end to end, composed from the code's
pieces: every task is submitted (flag never set), each worker runs
`_process_single_task` (its collaborators supplied per task index by
`acq`, `gen`, `save`), every future completes in time and its result is
handled once.  Used for whole-batch facts such as "a failing job yields
exactly one Outcome". -/
def runBatchFull (tasks : List GenerationTask) (acq : Nat → Option Nat)
    (gen : GenerationTask → Except String GenerationResult)
    (save : Except String String) (now : String) (t0 : Rat) : BatchProgress :=
  let p0 := initProgress tasks.length t0
  let submitted := submitLoop tasks (fun _ => false) 0 p0
  let outcomes := tasks.enum.map
    (fun it => (processSingleTask it.2 (acq it.1) (gen it.2) save now).result)
  outcomes.foldl handleTaskCompletion submitted.2

/-- The progress states a completion-drain phase makes observable: one
snapshot after each `_handle_task_completion`. -/
def applyCompletions : BatchProgress → List GenerationResult → List BatchProgress
  | _, [] => []
  | p, r :: rs =>
      let p1 := handleTaskCompletion p r
      p1 :: applyCompletions p1 rs

/-- The progress states one batch run makes observable after
initialisation: one snapshot after each of the `k` `in_progress += 1`
submission updates, then one after each completion.  Every snapshot is a
state that `get_progress` (which reads `self.progress` under the same
lock) can return. -/
def traceSubmits : BatchProgress → Nat → List GenerationResult → List BatchProgress
  | p, 0, rs => applyCompletions p rs
  | p, k + 1, rs =>
      let p1 := submitStep p
      p1 :: traceSubmits p1 k rs

/-- All observable progress states of a batch over `n` prompts in which
`k` tasks were submitted and the completions in `rs` were handled: the
freshly initialised state, the submission snapshots, the completion
snapshots. -/
def coordinatorStates (n k : Nat) (t0 : Rat) (rs : List GenerationResult) :
    List BatchProgress :=
  initProgress n t0 :: traceSubmits (initProgress n t0) k rs

/-- One executor worker's pass over the internal work queue, following
CPython's `concurrent.futures.thread._worker`: it pops work items one by
one and runs each; nothing in that loop reads
`MultiThreadGenerator.stop_requested`, so every popped item runs. -/
def drainWorkQueue : List GenerationTask → List GenerationTask
  | [] => []
  | t :: ts => t :: drainWorkQueue ts

/-- The tasks that still begin execution after `stop_generation`: the
flag is set and `executor.shutdown(wait=False)` is called without
`cancel_futures` (this Python predates passing it), which — per
`concurrent.futures.thread` — only flags shutdown and leaves every work
item already in `_work_queue` to be picked up and run.  `submitted` is
what the coordinator handed to the executor, `startedBeforeStop` the
number of work items worker threads had already begun when the flag was
set; everything still queued runs anyway. -/
def startsAfterStop (submitted : List GenerationTask)
    (startedBeforeStop : Nat) : List GenerationTask :=
  drainWorkQueue (submitted.drop startedBeforeStop)

/-- A `datetime.now()` value at the granularity `start_batch_generation`
consumes: the `strftime("%Y%m%d_%H%M%S")` format drops `microsecond`. -/
structure Timestamp where
  year : Nat
  month : Nat
  day : Nat
  hour : Nat
  minute : Nat
  second : Nat
  microsecond : Nat
deriving Repr, DecidableEq

/-- Zero-padded two-digit field of `strftime`. -/
def pad2 (n : Nat) : String :=
  if n < 10 then "0" ++ toString n else toString n

/-- Zero-padded four-digit year of `strftime`. -/
def pad4 (n : Nat) : String :=
  if n < 10 then "000" ++ toString n
  else if n < 100 then "00" ++ toString n
  else if n < 1000 then "0" ++ toString n
  else toString n

/-- `datetime.now().strftime("%Y%m%d_%H%M%S")`. -/
def strftimeBatch (t : Timestamp) : String :=
  pad4 t.year ++ pad2 t.month ++ pad2 t.day ++ "_" ++
    pad2 t.hour ++ pad2 t.minute ++ pad2 t.second

/-- `f"batch_{datetime.now().strftime('%Y%m%d_%H%M%S')}"`. -/
def batchIdOf (t : Timestamp) : String :=
  "batch_" ++ strftimeBatch t

/-- The coordinator state `start_batch_generation` reads and writes. -/
structure Coordinator where
  config : ThreadConfig
  progress : BatchProgress
  is_running : Bool
  stop_requested : Bool
deriving Repr, DecidableEq

/-- What a successful `start_batch_generation` call produces: the updated
coordinator, the returned `batch_id`, the `max_workers` bound given to
`ThreadPoolExecutor` (`min(self.config.max_workers, len(drivers))`), and
the task list built from the prompts
(`max_attempts=self.config.retry_attempts`, `attempt` defaulting to 1). -/
structure StartResult where
  coordinator : Coordinator
  batch_id : String
  worker_count : Nat
  tasks : List GenerationTask
deriving Repr, DecidableEq

/-- `MultiThreadGenerator.start_batch_generation`.  It raises
`RuntimeError` synchronously — before touching any state — when
`is_running` is already set; otherwise it resets progress, builds the
tasks, sizes the pool, computes the batch id from the wall clock and
spawns the background thread. -/
def start_batch_generation (c : Coordinator) (prompts : List Prompt)
    (platform : String) (drivers : List Nat) (now : Timestamp) (t0 : Rat) :
    Except String StartResult :=
  if c.is_running then
    Except.error "Batch generation already in progress"
  else
    Except.ok
      { coordinator :=
          { c with
            progress := initProgress prompts.length t0
            is_running := true
            stop_requested := false }
        batch_id := batchIdOf now
        worker_count := min c.config.max_workers drivers.length
        tasks := prompts.map (fun p =>
          { prompt := p, platform := platform, attempt := 1,
            max_attempts := c.config.retry_attempts }) }

/-! Helper lemmas about the loop models. -/

/-- Intermediate invariant of the coordinator's progress state once `m`
submissions have been counted: the completion counters agree, the result
list tracks `completed`, `in_progress` is exactly the submitted-minus-
completed balance, and no more than `m ≤ total_prompts` submissions
happened. -/
def midInv (m : Nat) (p : BatchProgress) : Prop :=
  p.completed = p.successful + p.failed ∧
  p.results.length = p.completed ∧
  p.in_progress + (p.completed : Int) = (m : Int) ∧
  p.completed ≤ m ∧
  m ≤ p.total_prompts

lemma midInv_handleTaskCompletion (m : Nat) (p : BatchProgress)
    (r : GenerationResult) (hp : midInv m p) (hc : p.completed < m) :
    midInv m (handleTaskCompletion p r) := by
  obtain ⟨h1, h2, h3, h4, h5⟩ := hp
  cases hr : r.success <;>
    exact ⟨by simp [handleTaskCompletion, hr]; omega,
           by simp [handleTaskCompletion, hr, h2],
           by simp [handleTaskCompletion, hr]; omega,
           by simp [handleTaskCompletion, hr]; omega,
           by simp [handleTaskCompletion, hr]; omega⟩

lemma applyCompletions_midInv (m : Nat) :
    ∀ (rs : List GenerationResult) (p : BatchProgress), midInv m p →
      p.completed + rs.length ≤ m →
      ∀ q ∈ applyCompletions p rs, midInv m q := by
  intro rs
  induction rs with
  | nil => intro p _ _ q hq; simp [applyCompletions] at hq
  | cons r rs ih =>
      intro p hp hc q hq
      have hstep : midInv m (handleTaskCompletion p r) :=
        midInv_handleTaskCompletion m p r hp (by simp at hc; omega)
      simp only [applyCompletions, List.mem_cons] at hq
      rcases hq with rfl | hq
      · exact hstep
      · exact ih (handleTaskCompletion p r) hstep
          (by simp [handleTaskCompletion] at *; omega) q hq

lemma midInv_submitStep (m : Nat) (p : BatchProgress) (hp : midInv m p)
    (hm : m + 1 ≤ p.total_prompts) : midInv (m + 1) (submitStep p) := by
  obtain ⟨h1, h2, h3, h4, h5⟩ := hp
  exact ⟨by simp [submitStep, h1], by simp [submitStep, h2],
         by simp [submitStep]; omega, by simp [submitStep]; omega,
         by simp [submitStep]; omega⟩

lemma traceSubmits_midInv :
    ∀ (k : Nat) (p : BatchProgress) (j : Nat) (rs : List GenerationResult),
      midInv j p → j + k ≤ p.total_prompts →
      p.completed + rs.length ≤ j + k →
      ∀ q ∈ traceSubmits p k rs, ∃ m, midInv m q := by
  intro k
  induction k with
  | zero =>
      intro p j rs hp ht hc q hq
      simp only [traceSubmits] at hq
      exact ⟨j, applyCompletions_midInv j rs p hp (by omega) q hq⟩
  | succ k ih =>
      intro p j rs hp ht hc q hq
      have hstep : midInv (j + 1) (submitStep p) :=
        midInv_submitStep j p hp (by omega)
      simp only [traceSubmits, List.mem_cons] at hq
      rcases hq with rfl | hq
      · exact ⟨j + 1, hstep⟩
      · exact ih (submitStep p) (j + 1) rs hstep
          (by simp [submitStep]; omega) (by simp [submitStep]; omega) q hq

/-- `_handle_task_completion` keeps `results.length = completed` without
any side condition. -/
lemma lenInv_handleTaskCompletion (p : BatchProgress) (r : GenerationResult)
    (h : p.results.length = p.completed) :
    (handleTaskCompletion p r).results.length = (handleTaskCompletion p r).completed := by
  simp [handleTaskCompletion, h]

lemma applyCompletions_lenInv :
    ∀ (rs : List GenerationResult) (p : BatchProgress),
      p.results.length = p.completed →
      ∀ q ∈ applyCompletions p rs, q.results.length = q.completed := by
  intro rs
  induction rs with
  | nil => intro p _ q hq; simp [applyCompletions] at hq
  | cons r rs ih =>
      intro p hp q hq
      simp only [applyCompletions, List.mem_cons] at hq
      rcases hq with rfl | hq
      · exact lenInv_handleTaskCompletion p r hp
      · exact ih (handleTaskCompletion p r) (lenInv_handleTaskCompletion p r hp) q hq

lemma traceSubmits_lenInv :
    ∀ (k : Nat) (p : BatchProgress) (rs : List GenerationResult),
      p.results.length = p.completed →
      ∀ q ∈ traceSubmits p k rs, q.results.length = q.completed := by
  intro k
  induction k with
  | zero =>
      intro p rs hp q hq
      simp only [traceSubmits] at hq
      exact applyCompletions_lenInv rs p hp q hq
  | succ k ih =>
      intro p rs hp q hq
      simp only [traceSubmits, List.mem_cons] at hq
      rcases hq with rfl | hq
      · simpa [submitStep] using hp
      · exact ih (submitStep p) rs (by simpa [submitStep] using hp) q hq

/-- Folding `_handle_task_completion` over a result list appends exactly
those results, in order. -/
lemma foldl_handleTaskCompletion_results :
    ∀ (rs : List GenerationResult) (p : BatchProgress),
      (rs.foldl handleTaskCompletion p).results = p.results ++ rs := by
  intro rs
  induction rs with
  | nil => intro p; simp
  | cons r rs ih => intro p; simp [ih, handleTaskCompletion]

/-- The submission loop never touches the result list. -/
lemma submitLoop_results :
    ∀ (tasks : List GenerationTask) (stopObs : Nat → Bool) (c : Nat)
      (p : BatchProgress), (submitLoop tasks stopObs c p).2.results = p.results := by
  intro tasks
  induction tasks with
  | nil => intro stopObs c p; simp [submitLoop]
  | cons t ts ih =>
      intro stopObs c p
      simp only [submitLoop]
      split
      · rfl
      · simpa [submitStep] using ih stopObs (c + 1) (submitStep p)

/-- The result list of an uninterrupted full run: one result per task,
the `j`-th computed by `_process_single_task` from the `j`-th task and its
own collaborators. -/
lemma runBatchFull_results (tasks : List GenerationTask) (acq : Nat → Option Nat)
    (gen : GenerationTask → Except String GenerationResult)
    (save : Except String String) (now : String) (t0 : Rat) :
    (runBatchFull tasks acq gen save now t0).results =
      tasks.enum.map
        (fun it => (processSingleTask it.2 (acq it.1) (gen it.2) save now).result) := by
  simp [runBatchFull, foldl_handleTaskCompletion_results, submitLoop_results, initProgress]

/-- The executor workers run every queued item: the drain pass is the
identity on the queue contents, since nothing cancels or filters items. -/
lemma drainWorkQueue_eq : ∀ ts : List GenerationTask, drainWorkQueue ts = ts := by
  intro ts
  induction ts with
  | nil => rfl
  | cons t ts ih => simp [drainWorkQueue, ih]

/-- The submission loop stops exactly at the first iteration at which the
cancellation flag is observed: the tasks handed to the executor are the
first `i` of the list (all of them if the loop ends first). -/
lemma submitLoop_take :
    ∀ (tasks : List GenerationTask) (stopObs : Nat → Bool) (c : Nat)
      (p : BatchProgress) (i : Nat), stopObs (c + i) = true →
      (∀ j, j < i → stopObs (c + j) = false) →
      (submitLoop tasks stopObs c p).1 = tasks.take i := by
  intro tasks
  induction tasks with
  | nil => intro stopObs c p i _ _; simp [submitLoop]
  | cons t ts ih =>
      intro stopObs c p i hi hmin
      cases i with
      | zero => simp only [submitLoop]; rw [show stopObs c = true by simpa using hi]; simp
      | succ i =>
          have hc : stopObs c = false := by simpa using hmin 0 (Nat.succ_pos i)
          simp only [submitLoop, hc, Bool.false_eq_true, if_false, List.take_succ_cons]
          have := ih stopObs (c + 1) (submitStep p) i
            (by rw [show c + 1 + i = c + (i + 1) by omega]; exact hi)
            (fun j hj => by
              rw [show c + 1 + j = c + (j + 1) by omega]
              exact hmin (j + 1) (by omega))
          simp [this]

/-- Draining with the flag never set: every future completing within the
deadline is handled (appending its result), and the first future whose
completion time exceeds the deadline makes `as_completed` raise
`TimeoutError` before yielding it, so nothing after it is handled. -/
lemma collectLoop_timeout (deadline : Nat) (stopObs : Nat → Bool)
    (nowAt : Nat → String) (t : GenerationTask) (time : Nat)
    (r : Except String GenerationResult)
    (rest : List (GenerationTask × Nat × Except String GenerationResult))
    (hlate : deadline < time) (hstop : ∀ n, stopObs n = false) :
    ∀ (done : List (GenerationTask × Nat × Except String GenerationResult))
      (i : Nat) (p : BatchProgress), (∀ x ∈ done, x.2.1 ≤ deadline) →
      (collectLoop deadline stopObs nowAt i
          (done ++ (t, time, r) :: rest) p).2 = true ∧
      (collectLoop deadline stopObs nowAt i
          (done ++ (t, time, r) :: rest) p).1.results.length =
        p.results.length + done.length := by
  intro done
  induction done with
  | nil =>
      intro i p _
      simp only [List.nil_append, collectLoop]
      rw [if_pos hlate]
      simp
  | cons x xs ih =>
      intro i p hdone
      have hx : x.2.1 ≤ deadline := hdone x (by simp)
      obtain ⟨t', time', r'⟩ := x
      simp only [List.cons_append, collectLoop]
      rw [if_neg (by simp at hx; omega), hstop i]
      simp only [Bool.false_eq_true, if_false]
      have := ih (i + 1)
        (handleTaskCompletion p (futureResult t' r' (nowAt i)))
        (fun y hy => hdone y (by simp [hy]))
      refine ⟨this.1, ?_⟩
      rw [List.append_eq, this.2]
      simp [handleTaskCompletion]
      omega

/-! Concrete fixtures used by witness and counterexample theorems. -/

def promptA : Prompt := { id := "p1", text := "a sunset" }

def promptB : Prompt := { id := "p2", text := "a cat" }

def promptC : Prompt := { id := "p3", text := "a city" }

def taskA : GenerationTask := { prompt := promptA, platform := "leonardo" }

def taskB : GenerationTask := { prompt := promptB, platform := "leonardo" }

def taskC : GenerationTask := { prompt := promptC, platform := "leonardo" }

def okA : GenerationResult := { prompt_id := "p1", success := true }

def failB : GenerationResult :=
  { prompt_id := "p2", success := false, error := some "no artifact" }

def tsW : Timestamp :=
  { year := 2026, month := 10, day := 12, hour := 9, minute := 30,
    second := 7, microsecond := 0 }

def tsW2 : Timestamp :=
  { year := 2026, month := 10, day := 12, hour := 9, minute := 30,
    second := 7, microsecond := 999999 }

def coordIdle : Coordinator :=
  { config := {}, progress := {}, is_running := false, stop_requested := false }

def coordBusy : Coordinator := { coordIdle with is_running := true }

def coordIdle2 : Coordinator :=
  { config := { max_workers := 5, timeout := 60, retry_attempts := 3,
                delay_between_batches := 2, delay_between_retries := 1 }
    progress := {}, is_running := false, stop_requested := false }

def acqW : Nat → Option Nat := fun _ => some 0

def genW : GenerationTask → Except String GenerationResult := fun _ => Except.ok okA

def neverStop : Nat → Bool := fun _ => false

def stopAfterTwo : Nat → Bool := fun n => decide (2 ≤ n)

def nowAtW : Nat → String := fun _ => "t"

/-- The final progress state of a two-prompt batch in which both tasks
were submitted and completed, the first successfully, the second not. -/
def qW : BatchProgress :=
  { total_prompts := 2, completed := 2, successful := 1, failed := 1,
    in_progress := 0, start_time := 0, results := [okA, failB] }

def rW : StartResult :=
  { coordinator := { config := {}, progress := initProgress 1 0,
                     is_running := true, stop_requested := false }
    batch_id := batchIdOf tsW
    worker_count := min 3 2
    tasks := [{ prompt := promptA, platform := "leonardo", attempt := 1,
                max_attempts := 2 }] }

def rW2 : StartResult :=
  { coordinator := { config := coordIdle2.config, progress := initProgress 0 1,
                     is_running := true, stop_requested := false }
    batch_id := batchIdOf tsW2
    worker_count := min 5 0
    tasks := [] }

/-! The claims. -/

/-- Claim C1 (code bug): the spec requires that a job failing with
`attempt < max_attempts` has its attempt counter incremented and is
re-queued, one Outcome per attempt.  The code carries all the retry
machinery (`ThreadConfig.retry_attempts`, `delay_between_retries`,
`GenerationTask.attempt`, `max_attempts`) but never reads it back:
nothing increments `attempt` or resubmits a failed task.  Executing the
embedded pipeline on one job whose executor fails, with retry budget 2
(`attempt = 1 < max_attempts = 2`), yields exactly one Outcome and a
terminal failure after the single attempt. -/
theorem failing_job_gets_one_outcome_no_retry :
    taskB.attempt < taskB.max_attempts ∧
    (let final := runBatchFull [taskB] acqW (fun _ => Except.ok failB)
        (Except.ok "meta") "t" 0
     (final.results.length, final.completed, final.successful, final.failed) =
       (1, 1, 0, 1)) := by
  decide

/-- Claim C2 counterexample: resource acquisition does not block up to
`config.timeout`.  The call is `driver_queue.get(timeout=30)`: a driver
becoming free 100 s in (well within the default `config.timeout = 300`) is
not acquired, and with `config.timeout = 10` the call blocks longer than
the configured per-job timeout. -/
theorem acquire_timeout_not_config_timeout :
    ((queueGet 0 (some 100)).1 = none ∧ 100 ≤ ({} : ThreadConfig).timeout) ∧
    ¬ (queueGet 0 none).2 ≤ ({ timeout := 10 } : ThreadConfig).timeout := by
  decide

/-- Claim C2 amended: resource acquisition blocks for at most the fixed
30-second `driverAcquireTimeout`, independent of `config.timeout`.  If it
times out, that job's Outcome has `success = false` with error
`"Task processing error: "` (the `str` of `queue.Empty`) and no exception
escapes the worker; every other job's outcome is computed solely from its
own task, acquisition and execution, so it is unaffected. -/
theorem acquire_timeout_fixed_thirty (avail : Option Nat) (d : Nat)
    (task : GenerationTask) (g : Except String GenerationResult)
    (s : Except String String) (now : String)
    (tasks : List GenerationTask) (acq : Nat → Option Nat)
    (gen : GenerationTask → Except String GenerationResult)
    (save : Except String String) (t0 : Rat) (j : Nat)
    (h : (queueGet d avail).1 = none) :
    (queueGet d avail).2 ≤ driverAcquireTimeout ∧
    (processSingleTask task (queueGet d avail).1 g s now).result.success = false ∧
    (processSingleTask task (queueGet d avail).1 g s now).result.error =
      some (taskProcessingError "") ∧
    (processSingleTask task (queueGet d avail).1 g s now).raised = false ∧
    (runBatchFull tasks acq gen save now t0).results[j]? =
      (tasks[j]?).map (fun u => (processSingleTask u (acq j) (gen u) save now).result) := by
  refine ⟨?_, ?_, ?_, ?_, ?_⟩
  · cases avail with
    | none => simp [queueGet]
    | some s' =>
        by_cases hs' : s' ≤ driverAcquireTimeout <;> simp [queueGet, hs']
  · rw [h]; rfl
  · rw [h]; rfl
  · rw [h]; rfl
  · rw [runBatchFull_results]
    simp [List.getElem?_map, List.getElem?_enum, Option.map_map]
    rfl

theorem acquire_timeout_fixed_thirty_witness :
    (queueGet 0 none).2 ≤ driverAcquireTimeout ∧
    (processSingleTask taskA (queueGet 0 none).1 (Except.ok okA)
        (Except.ok "meta") "t").result.success = false ∧
    (processSingleTask taskA (queueGet 0 none).1 (Except.ok okA)
        (Except.ok "meta") "t").result.error = some (taskProcessingError "") ∧
    (processSingleTask taskA (queueGet 0 none).1 (Except.ok okA)
        (Except.ok "meta") "t").raised = false ∧
    (runBatchFull [taskA, taskB] acqW genW (Except.ok "meta") "t" 0).results[1]? =
      ([taskA, taskB][1]?).map
        (fun u => (processSingleTask u (acqW 1) (genW u) (Except.ok "meta") "t").result) :=
  acquire_timeout_fixed_thirty none 0 taskA (Except.ok okA) (Except.ok "meta") "t"
    [taskA, taskB] acqW genW (Except.ok "meta") 0 1 (by decide)

/-- Claim C3 counterexample: an execution attempt exceeding the deadline
is not converted into a failed Outcome.  The only execution timeout is the
aggregate `as_completed(..., timeout=config.timeout * len(tasks))`: with
one task whose future completes after 301 s > 300 s, `as_completed` raises
`TimeoutError` before yielding it and the attempt receives no Outcome at
all (the result list stays empty). -/
theorem deadline_expiry_yields_no_outcome :
    (runBatchGeneration {} [taskA] neverStop neverStop nowAtW
        [(taskA, 301, Except.ok okA)] (initProgress 1 0)).progress.results = [] ∧
    ({} : ThreadConfig).timeout * [taskA].length < 301 := by
  decide

/-- Claim C3 amended: when the aggregate collection deadline
(`config.timeout * len(tasks)` — there is no per-attempt timeout) expires
while a future is still pending, the `TimeoutError` is caught by the
coordinator's catch-all (`unhandledFault = false`), but `_finalize_batch`
is skipped and the overrunning attempt receives no Outcome: only the
futures that completed within the deadline contribute results. -/
theorem deadline_expiry_caught_no_outcome (cfg : ThreadConfig)
    (tasks : List GenerationTask) (nowAt : Nat → String)
    (done : List (GenerationTask × Nat × Except String GenerationResult))
    (t : GenerationTask) (time : Nat) (r : Except String GenerationResult)
    (rest : List (GenerationTask × Nat × Except String GenerationResult))
    (p0 : BatchProgress)
    (hdone : ∀ x ∈ done, x.2.1 ≤ cfg.timeout * tasks.length)
    (hlate : cfg.timeout * tasks.length < time) :
    (runBatchGeneration cfg tasks neverStop neverStop nowAt
        (done ++ (t, time, r) :: rest) p0).unhandledFault = false ∧
    (runBatchGeneration cfg tasks neverStop neverStop nowAt
        (done ++ (t, time, r) :: rest) p0).finalized = false ∧
    (runBatchGeneration cfg tasks neverStop neverStop nowAt
        (done ++ (t, time, r) :: rest) p0).progress.results.length =
      p0.results.length + done.length := by
  have hmain := collectLoop_timeout (cfg.timeout * tasks.length) neverStop nowAt
    t time r rest hlate (fun n => rfl) done 0 (submitLoop tasks neverStop 0 p0).2 hdone
  refine ⟨rfl, ?_, ?_⟩
  · simp only [runBatchGeneration]
    rw [hmain.1]
    rfl
  · simp only [runBatchGeneration]
    rw [hmain.2, submitLoop_results]

theorem deadline_expiry_caught_no_outcome_witness :
    (runBatchGeneration {} [taskA, taskB] neverStop neverStop nowAtW
        ([(taskA, 5, Except.ok okA)] ++ (taskB, 601, Except.ok okA) :: [])
        (initProgress 2 0)).unhandledFault = false ∧
    (runBatchGeneration {} [taskA, taskB] neverStop neverStop nowAtW
        ([(taskA, 5, Except.ok okA)] ++ (taskB, 601, Except.ok okA) :: [])
        (initProgress 2 0)).finalized = false ∧
    (runBatchGeneration {} [taskA, taskB] neverStop neverStop nowAtW
        ([(taskA, 5, Except.ok okA)] ++ (taskB, 601, Except.ok okA) :: [])
        (initProgress 2 0)).progress.results.length =
      (initProgress 2 0).results.length +
        [(taskA, 5, (Except.ok okA : Except String GenerationResult))].length :=
  deadline_expiry_caught_no_outcome {} [taskA, taskB] nowAtW
    [(taskA, 5, Except.ok okA)] taskB 601 (Except.ok okA) [] (initProgress 2 0)
    (by decide) (by decide)

/-- Claim C4 counterexample: a failure raised by the result sink does
change a job's Outcome from success to failure.  `save_result` is called
inside the worker's single `try`; when it raises, the `except` clause
returns a failed `GenerationResult` even though the executor had reported
success. -/
theorem sink_failure_flips_success :
    okA.success = true ∧
    (processSingleTask taskA (some 0) (Except.ok okA)
        (Except.error "disk full") "t").result.success = false := by
  decide

/-- Claim C4 amended: a failure raised by the progress subscriber callback
is caught, logged and swallowed — the counters are updated exactly as
without a callback and nothing propagates.  A failure raised by the result
sink is caught by the worker's catch-all and never escapes the worker (the
driver is still returned), but it replaces a successful execution's
Outcome with a failed one carrying `"Task processing error: <e>"`. -/
theorem sink_subscriber_failure_containment (p : BatchProgress)
    (r : GenerationResult) (cb : BatchProgress → Except String Unit)
    (task : GenerationTask) (d : Nat) (res : GenerationResult) (e now : String)
    (hres : res.success = true) :
    handleTaskCompletionWithCb p r cb = Except.ok (handleTaskCompletion p r) ∧
    (processSingleTask task (some d) (Except.ok res) (Except.error e) now).raised = false ∧
    (processSingleTask task (some d) (Except.ok res) (Except.error e) now).driver_returned = true ∧
    (processSingleTask task (some d) (Except.ok res) (Except.error e) now).result.success = false ∧
    (processSingleTask task (some d) (Except.ok res) (Except.error e) now).result.error =
      some (taskProcessingError e) := by
  refine ⟨?_, ?_, ?_, ?_, ?_⟩ <;>
    first
      | (cases hcb : cb (handleTaskCompletion p r) <;>
          simp [handleTaskCompletionWithCb, hcb])
      | simp [processSingleTask, hres]

theorem sink_subscriber_failure_containment_witness :
    handleTaskCompletionWithCb qW okA (fun _ => Except.error "subscriber down") =
      Except.ok (handleTaskCompletion qW okA) ∧
    (processSingleTask taskA (some 0) (Except.ok okA)
        (Except.error "disk full") "t").raised = false ∧
    (processSingleTask taskA (some 0) (Except.ok okA)
        (Except.error "disk full") "t").driver_returned = true ∧
    (processSingleTask taskA (some 0) (Except.ok okA)
        (Except.error "disk full") "t").result.success = false ∧
    (processSingleTask taskA (some 0) (Except.ok okA)
        (Except.error "disk full") "t").result.error =
      some (taskProcessingError "disk full") :=
  sink_subscriber_failure_containment qW okA (fun _ => Except.error "subscriber down")
    taskA 0 okA "disk full" "t" (by decide)

/-- Claim C5: every observable progress state of a batch — the freshly
initialised state, the state after each `in_progress += 1` submission
update, and the state after each `_handle_task_completion` — satisfies
`completed = successful + failed`, `in_progress ≥ 0`,
`completed ≤ total_prompts` and `in_progress + completed ≤ total_prompts`,
provided at most `n` tasks are submitted and each completion handled comes
from a submitted task. -/
theorem progress_invariants_hold (n k : Nat) (t0 : Rat)
    (rs : List GenerationResult) (hk : k ≤ n) (hr : rs.length ≤ k) :
    ∀ q ∈ coordinatorStates n k t0 rs,
      q.completed = q.successful + q.failed ∧ 0 ≤ q.in_progress ∧
      q.completed ≤ q.total_prompts ∧
      q.in_progress + (q.completed : Int) ≤ (q.total_prompts : Int) := by
  intro q hq
  simp only [coordinatorStates, List.mem_cons] at hq
  rcases hq with rfl | hq
  · simp [initProgress]
  · obtain ⟨m, h1, h2, h3, h4, h5⟩ := traceSubmits_midInv k (initProgress n t0) 0 rs
      (by simp [midInv, initProgress]) (by simpa [initProgress] using hk)
      (by simpa [initProgress] using hr) q hq
    exact ⟨h1, by omega, by omega, by omega⟩

theorem progress_invariants_hold_witness :
    qW.completed = qW.successful + qW.failed ∧ 0 ≤ qW.in_progress ∧
    qW.completed ≤ qW.total_prompts ∧
    qW.in_progress + (qW.completed : Int) ≤ (qW.total_prompts : Int) :=
  progress_invariants_hold 2 2 0 [okA, failB] (by decide) (by decide) qW (by decide)

/-- Claim C6 counterexample: the claim also promises that "no job not yet
started begins execution" once the flag is observed, and the code violates
it.  All three tasks were handed to the executor before the stop and only
the first had been begun by a worker; `taskB` is not among the started
jobs, yet it still begins execution after the flag is set, because
`stop_generation`'s `shutdown(wait=False)` (without `cancel_futures`)
cancels nothing queued and worker threads never check `stop_requested`. -/
theorem queued_job_starts_after_stop :
    taskB ∈ startsAfterStop [taskA, taskB, taskC] 1 ∧
    taskB ∉ [taskA, taskB, taskC].take 1 := by
  decide

/-- Claim C6 amended: the coordinator's submission loop checks the
cancellation flag before handing each task to the executor, so once the
flag is observed (first at iteration `i`) no further task is dequeued or
submitted: exactly the first `i` tasks are handed over.  But jobs already
handed to the executor are not stopped: whatever number `s` of them worker
threads had begun when the flag was set, every remaining queued job still
begins execution afterwards (`shutdown(wait=False)` without
`cancel_futures` cancels nothing and the worker loop never reads the
flag). -/
theorem no_submission_after_stop_observed (tasks : List GenerationTask)
    (stopObs : Nat → Bool) (p : BatchProgress) (i s : Nat)
    (hi : stopObs i = true) (hmin : ∀ j, j < i → stopObs j = false) :
    (submitLoop tasks stopObs 0 p).1 = tasks.take i ∧
    startsAfterStop (submitLoop tasks stopObs 0 p).1 s =
      (submitLoop tasks stopObs 0 p).1.drop s :=
  ⟨submitLoop_take tasks stopObs 0 p i (by simpa using hi)
    (fun j hj => by simpa using hmin j hj),
   drainWorkQueue_eq _⟩

theorem no_submission_after_stop_observed_witness :
    ((submitLoop [taskA, taskB, taskC] stopAfterTwo 0 (initProgress 3 0)).1 =
      [taskA, taskB, taskC].take 2 ∧
    startsAfterStop (submitLoop [taskA, taskB, taskC] stopAfterTwo 0
        (initProgress 3 0)).1 1 =
      (submitLoop [taskA, taskB, taskC] stopAfterTwo 0 (initProgress 3 0)).1.drop 1) :=
  no_submission_after_stop_observed [taskA, taskB, taskC] stopAfterTwo
    (initProgress 3 0) 2 1 (by decide) (by decide)

/-- Claim C7: calling `start_batch_generation` while a batch is running
raises `RuntimeError("Batch generation already in progress")` before any
state is touched: the caller gets the error synchronously, no new
progress record, task list or worker pool is produced, and the running
batch's state is left as it was. -/
theorem start_while_running_errors (c : Coordinator) (prompts : List Prompt)
    (platform : String) (drivers : List Nat) (now : Timestamp) (t0 : Rat)
    (h : c.is_running = true) :
    start_batch_generation c prompts platform drivers now t0 =
      Except.error "Batch generation already in progress" := by
  simp [start_batch_generation, h]

theorem start_while_running_errors_witness :
    start_batch_generation coordBusy [promptA] "leonardo" [0] tsW 0 =
      Except.error "Batch generation already in progress" :=
  start_while_running_errors coordBusy [promptA] "leonardo" [0] tsW 0 (by decide)

/-- Claim C8: a successful batch start sizes the worker pool to
`min(config.max_workers, len(drivers))`, exactly the bound passed to
`ThreadPoolExecutor`. -/
theorem worker_count_is_min (c : Coordinator) (prompts : List Prompt)
    (platform : String) (drivers : List Nat) (now : Timestamp) (t0 : Rat)
    (r : StartResult)
    (h : start_batch_generation c prompts platform drivers now t0 = Except.ok r) :
    r.worker_count = min c.config.max_workers drivers.length := by
  unfold start_batch_generation at h
  split at h
  · exact absurd h (by simp)
  · injection h with h
    rw [← h]

theorem worker_count_is_min_witness :
    rW.worker_count = min coordIdle.config.max_workers [0, 1].length :=
  worker_count_is_min coordIdle [promptA] "leonardo" [0, 1] tsW 0 rW rfl

/-- Claim C9: every observable progress state keeps
`results.length = completed`: each `_handle_task_completion` appends
exactly one result and increments `completed` exactly once under the same
lock, submission updates touch neither, and the fresh state has both at
zero. -/
theorem results_length_eq_completed (n k : Nat) (t0 : Rat)
    (rs : List GenerationResult) :
    ∀ q ∈ coordinatorStates n k t0 rs, q.results.length = q.completed := by
  intro q hq
  simp only [coordinatorStates, List.mem_cons] at hq
  rcases hq with rfl | hq
  · simp [initProgress]
  · exact traceSubmits_lenInv k (initProgress n t0) rs (by simp [initProgress]) q hq

theorem results_length_eq_completed_witness :
    qW.results.length = qW.completed :=
  results_length_eq_completed 2 2 0 [okA, failB] qW (by decide)

/-- Claim C10: the returned batch identifier is
`f"batch_{now.strftime('%Y%m%d_%H%M%S')}"`: it depends only on the wall
clock truncated to whole seconds.  Two successful starts within the same
clock second — with different coordinators, prompt lists, platforms,
driver pools, configurations and sub-second clock readings — return equal
identifiers, so identifiers are not guaranteed unique. -/
theorem batch_id_depends_only_on_second (c1 c2 : Coordinator)
    (ps1 ps2 : List Prompt) (pf1 pf2 : String) (ds1 ds2 : List Nat)
    (t1 t2 : Timestamp) (x1 x2 : Rat) (r1 r2 : StartResult)
    (h1 : start_batch_generation c1 ps1 pf1 ds1 t1 x1 = Except.ok r1)
    (h2 : start_batch_generation c2 ps2 pf2 ds2 t2 x2 = Except.ok r2)
    (hy : t1.year = t2.year) (hmo : t1.month = t2.month)
    (hd : t1.day = t2.day) (hh : t1.hour = t2.hour)
    (hmi : t1.minute = t2.minute) (hs : t1.second = t2.second) :
    r1.batch_id = r2.batch_id := by
  have e1 : r1.batch_id = batchIdOf t1 := by
    unfold start_batch_generation at h1
    split at h1
    · exact absurd h1 (by simp)
    · injection h1 with h1
      rw [← h1]
  have e2 : r2.batch_id = batchIdOf t2 := by
    unfold start_batch_generation at h2
    split at h2
    · exact absurd h2 (by simp)
    · injection h2 with h2
      rw [← h2]
  rw [e1, e2]
  unfold batchIdOf strftimeBatch
  rw [hy, hmo, hd, hh, hmi, hs]

theorem batch_id_depends_only_on_second_witness :
    rW.batch_id = rW2.batch_id :=
  batch_id_depends_only_on_second coordIdle coordIdle2 [promptA] []
    "leonardo" "midjourney" [0, 1] [] tsW tsW2 0 1 rW rW2 rfl rfl
    rfl rfl rfl rfl rfl rfl

end ThreadManager
